import Mathlib

/-!
Shallow embedding of the remote-command / iSCSI-lifecycle core of the
Datera automation toolkit, together with proofs about the behaviour of
`qalib.qabase.polling.poll`, `qalib.client.iscsi.ISCSIInitiator`
(discover / login_all_targets / logout / delete / destroy_iface and the
registry bookkeeping helpers) and `qalib.corelibs.ssh.SSH._open_transport`
/ `Async.read`.

Machine integers in the source are unbounded Python ints; exit statuses
are modelled as `Int`, counts and times as `Nat`.  Wall-clock time is
modelled by explicit per-attempt durations.
-/

namespace Datera

/-- An iSCSI target as stored in the registries: the `IscsiTarget`
namedtuple `(ip, port, iqn, iface)` from `qalib/client/iscsi.py`.
Python namedtuples compare by value, hence `DecidableEq`. -/
structure IscsiTarget where
  ip : String
  port : Nat
  iqn : String
  iface : String
deriving DecidableEq, Repr

/-- `listStarts pat l` is true when `pat` is an initial segment of `l`
(character-level helper for Python's substring containment test). -/
def listStarts : List Char → List Char → Bool
  | [], _ => true
  | _ :: _, [] => false
  | p :: ps, c :: cs => p == c && listStarts ps cs

/-- `containsSub pat l` is true when `pat` occurs contiguously in `l`. -/
def containsSub (pat : List Char) : List Char → Bool
  | [] => listStarts pat []
  | c :: rest => listStarts pat (c :: rest) || containsSub pat rest

/-- Python's `pat in hay` on strings: substring containment. -/
def strContains (hay pat : String) : Bool :=
  containsSub pat.data hay.data

/-- Python's `a or b` where `a` is a string literal and `b` a boolean
expression: the whole expression is truthy whenever `a` is non-empty. -/
def pyOrStrB (a : String) (b : Bool) : Bool :=
  if a = "" then b else true

/-! ### `qalib.qabase.polling.poll`

`poll(function, args, kwargs, retries, interval, timeout, ...)` is a
generator.  Its parameter normalisation (from the source):

* `interval is None` → `interval = 1`;
* `timeout is None and retries is None` → `retries = 20`;
* `if timeout:` (truthy, i.e. not `None` and non-zero) →
  `retries = int(timeout / interval)`; otherwise `timeout = 1000000`.

Note the truthiness check: a supplied `timeout` of `0` keeps the caller's
`retries` (and if `retries` was `None` as well, the Python 2 comparison
`current < None` is always false, so the loop never runs; we encode that
case as an effective retry count of `0`).

The loop is `while current < retries and (time() - start_time) < timeout`,
with `sleep(interval)` after every yield.  We model the `k`-th call of the
polled function as returning `f k` after running for `d k` seconds, so
the elapsed time at the check before call `k` is
`Σ_{j<k} (d j + interval)`. -/

/-- Substitute for `timeout` when no (truthy) timeout is given. -/
def pollDefaultTimeout : Nat := 1000000

/-- Parameter normalisation of `poll`: given the caller's `retries`,
`interval` and `timeout` (each `none` when not supplied), returns the
effective `(retries, timeout)` pair used by the polling loop. -/
def pollEffective (retries interval timeout : Option Nat) : Nat × Nat :=
  let i := interval.getD 1
  let r := if timeout = none ∧ retries = none then some 20 else retries
  match timeout with
  | some t => if t ≠ 0 then (t / i, t) else (r.getD 0, pollDefaultTimeout)
  | none => (r.getD 0, pollDefaultTimeout)

/-- The number of results the polling `while` loop yields: recursion over
the remaining retry budget, tracking the call index and the elapsed time
at the loop check.  `d` gives each call's duration, `i` the interval and
`t` the effective timeout. -/
def pollCountGo (d : Nat → Nat) (i t : Nat) : Nat → Nat → Nat → Nat
  | 0, _, _ => 0
  | n + 1, k, elapsed =>
    if elapsed < t then 1 + pollCountGo d i t n (k + 1) (elapsed + d k + i)
    else 0

/-- Total number of results `poll` yields for the given parameters. -/
def pollCount (d : Nat → Nat) (retries interval timeout : Option Nat) : Nat :=
  let (r, t) := pollEffective retries interval timeout
  pollCountGo d (interval.getD 1) t r 0 0

/-- The full trace of results `poll` yields: the `k`-th yield is the
result of the `k`-th invocation of the polled function. -/
def pollTrace {α : Type} (f : Nat → α) (d : Nat → Nat)
    (retries interval timeout : Option Nat) : List α :=
  (List.range (pollCount d retries interval timeout)).map f

/-- The two exception classes that appear in `qalib/qabase/polling.py`:
`ValueError` (raised by `poll` itself when `args` is a string) and
`PollingException` (raised only by the caller-side wrapper
`result_poll`, never by `poll`). -/
inductive PollError where
  | valueError : PollError
  | pollingException : PollError
deriving DecidableEq, Repr

/-- `poll` as a fallible computation: the only `raise` in its body fires
when `args` is a string; otherwise it produces its (finite) yield trace
and terminates without raising. -/
def pollRun {α : Type} (f : Nat → α) (d : Nat → Nat) (argsIsString : Bool)
    (retries interval timeout : Option Nat) : Except PollError (List α) :=
  if argsIsString then .error .valueError
  else .ok (pollTrace f d retries interval timeout)

/-- The scan loop of `result_poll` over the `poll` trace. -/
def resultPollGo {α : Type} [DecidableEq α] (expectedResult : α) (i : Nat) :
    List α → Nat → Except PollError Nat
  | [], _ => .error .pollingException
  | x :: rest, cnt =>
    if x = expectedResult then .ok ((cnt + 1) * i)
    else resultPollGo expectedResult i rest (cnt + 1)

/-- `result_poll`: scans the `poll` trace for `expectedResult`; returns
`cnt * interval` on the first match and raises `PollingException` when
the trace is exhausted without one (modelled with instantaneous calls). -/
def resultPoll {α : Type} [DecidableEq α] (f : Nat → α) (expectedResult : α)
    (retries interval timeout : Option Nat) : Except PollError Nat :=
  resultPollGo expectedResult (interval.getD 1)
    (pollTrace f (fun _ => 0) retries interval timeout) 0

/-! ### `qalib.client.iscsi` — constants and command strings -/

/-- `_DELETE_RETRY_COUNT` from `qalib/client/iscsi.py`. -/
def DELETE_RETRY_COUNT : Nat := 12

/-- `_DISCOVERY_RETRY_COUNT` from `qalib/client/iscsi.py`. -/
def DISCOVERY_RETRY_COUNT : Nat := 5

/-- `_DISCOVERY_TIMEOUT` from `qalib/client/iscsi.py`. -/
def DISCOVERY_TIMEOUT : Nat := 100

/-- `_ISCSIADM_RETRY_INTERVAL` from `qalib/client/iscsi.py`. -/
def ISCSIADM_RETRY_INTERVAL : Nat := 5

/-- `_LOGOUT_RETRY_COUNT` from `qalib/client/iscsi.py`. -/
def LOGOUT_RETRY_COUNT : Nat := 12

/-- The command string built by `ISCSIInitiator.logout`:
`iscsiadm -m node -T <iqn> [-p ip:port] [-I iface] --logout`. -/
def logoutCmd (iqn : String) (ip : Option String) (port : Nat)
    (ifaceName : Option String) : String :=
  String.intercalate " "
    (["iscsiadm", "-m", "node", "-T", iqn]
      ++ (match ip with
          | some a => ["-p", a ++ ":" ++ toString port]
          | none => [])
      ++ (match ifaceName with
          | some i => ["-I", i]
          | none => [])
      ++ ["--logout"])

/-- The command string built by `ISCSIInitiator.delete`:
`iscsiadm -m node -T <iqn> [-p ip] --op delete`. -/
def deleteCmd (iqn : String) (ip : Option String) : String :=
  String.intercalate " "
    (["iscsiadm", "-m", "node", "-T", iqn]
      ++ (match ip with
          | some a => ["-p", a]
          | none => [])
      ++ ["--op", "delete"])

/-- The command string built by `ISCSIInitiator.destroy_iface`:
`iscsiadm -m iface -I <iface_name> -o delete`. -/
def destroyIfaceCmd (ifaceName : String) : String :=
  "iscsiadm -m iface -I " ++ ifaceName ++ " -o delete"

/-- Outcome of a lifecycle call: either it returns, or it raises
`EnvironmentError` carrying the host name, the command string, the last
exit status and the last output (`None`/`none` if no attempt ran). -/
inductive IscsiCmdResult where
  | ok : IscsiCmdResult
  | envError (cmd : String) (ret : Option Int) (output : Option String) :
      IscsiCmdResult
deriving DecidableEq, Repr

/-! ### Registry bookkeeping

`DISCOVERED_TARGETS` and `ISCSI_LOGGEDIN_TARGETS` are process-wide dicts
mapping a host name to a list of `IscsiTarget`.  We model one host's
entry as `Option (List IscsiTarget)`: `none` when the host name is not a
key of the dict. -/

/-- `ISCSIInitiator.remove_iscsi_loggedin_target_using_iqn`, inner loop:
iterate over a copy of the list; on an IQN match, remove when no IP was
given (no `break`, so every IQN match is removed), or remove the first
target also matching the IP and `break`. -/
def removeLoggedinLoop (ip : Option String) (iqn : String)
    (l : List IscsiTarget) : List IscsiTarget :=
  match ip with
  | none => l.filter (fun t => !(t.iqn == iqn))
  | some a => l.eraseP (fun t => t.iqn == iqn && t.ip == a)

/-- `ISCSIInitiator.remove_iscsi_loggedin_target_using_iqn`.  The guard
in the source is
`if (name in ISCSI_LOGGEDIN_TARGETS and not ISCSI_LOGGEDIN_TARGETS[name])`:
the loop body runs only when the host's logged-in list is *empty* (the
Python `not` makes the removal loop unreachable for non-empty lists). -/
def removeIscsiLoggedinTargetUsingIqn (entry : Option (List IscsiTarget))
    (ip : Option String) (iqn : String) : Option (List IscsiTarget) :=
  match entry with
  | none => none
  | some l => if l.isEmpty then some (removeLoggedinLoop ip iqn l) else some l

/-- Benign outcomes of the logout command, from `ISCSIInitiator.logout`:
`error_code = [3, 7, 21]` and `error_response = ["No matching sessions
found", "Could not read iface info for"]`; the output test in the source
is list membership (`output in error_response`), i.e. string equality. -/
def logoutBenign (ret : Int) (output : String) : Bool :=
  ret == 3 || ret == 7 || ret == 21
    || output == "No matching sessions found"
    || output == "Could not read iface info for"

/-- One record of what `ISCSIInitiator.logout` did: the call's result,
the host's `ISCSI_LOGGEDIN_TARGETS` entry afterwards, how many
`log.warning` calls fired for the transient exit code 6, and how many
times the command was invoked. -/
structure LogoutOutcome where
  result : IscsiCmdResult
  entry : Option (List IscsiTarget)
  warnings : Nat
  consumed : Nat
deriving DecidableEq, Repr

/-- The `for ... else` loop of `ISCSIInitiator.logout` over the results
yielded by `poll`: exit 0 → registry cleanup and success; exit 3/7/21 or
an `error_response` output → success ("already logged out"); exit 6 →
`log.warning` and another attempt; loop exhausted → `EnvironmentError`
with the last exit status and output. -/
def logoutGo (cmd : String) (ip : Option String) (iqn : String) :
    List (Int × String) → Option (Int × String) →
    Option (List IscsiTarget) → Nat → Nat → LogoutOutcome
  | [], last, entry, w, n =>
    ⟨.envError cmd (last.map (·.1)) (last.map (·.2)), entry, w, n⟩
  | (r, o) :: rest, _, entry, w, n =>
    if r = 0 then
      ⟨.ok, removeIscsiLoggedinTargetUsingIqn entry ip iqn, w, n + 1⟩
    else if logoutBenign r o then ⟨.ok, entry, w, n + 1⟩
    else logoutGo cmd ip iqn rest (some (r, o)) entry
      (if r = 6 then w + 1 else w) (n + 1)

/-- `ISCSIInitiator.logout`, given the list of `(exit status, output)`
pairs the `poll` generator would yield (at most `_LOGOUT_RETRY_COUNT`). -/
def logoutRun (iqn : String) (ip : Option String) (port : Nat)
    (ifaceName : Option String) (attempts : List (Int × String))
    (entry : Option (List IscsiTarget)) : LogoutOutcome :=
  logoutGo (logoutCmd iqn ip port ifaceName) ip iqn attempts none entry 0 0

/-- Result and attempt count of the delete retry loop. -/
structure DeleteOutcome where
  result : IscsiCmdResult
  entry : Option (List IscsiTarget)
  warnings : Nat
  consumed : Nat
deriving DecidableEq, Repr

/-- The `for ... else` loop of `ISCSIInitiator.delete`: exit 0 → break
(success); exit 21 or `"No records found"` a substring of the output →
break ("already deleted"); exit 6 → `log.warning` and another attempt;
loop exhausted → `EnvironmentError` with the last status and output. -/
def deleteGo (cmd : String) :
    List (Int × String) → Option (Int × String) → Nat → Nat →
    IscsiCmdResult × Nat × Nat
  | [], last, w, n =>
    (.envError cmd (last.map (·.1)) (last.map (·.2)), w, n)
  | (r, o) :: rest, _, w, n =>
    if r = 0 then (.ok, w, n + 1)
    else if r = 21 ∨ strContains o "No records found" = true then
      (.ok, w, n + 1)
    else deleteGo cmd rest (some (r, o)) (if r = 6 then w + 1 else w) (n + 1)

/-- The bookkeeping after the delete loop: when the host has a non-empty
`DISCOVERED_TARGETS` entry, every target whose IQN matches is removed. -/
def deleteBookkeeping (entry : Option (List IscsiTarget)) (iqn : String) :
    Option (List IscsiTarget) :=
  match entry with
  | none => none
  | some l =>
    if l.isEmpty then some l else some (l.filter (fun t => !(t.iqn == iqn)))

/-- `ISCSIInitiator.delete`, given the `(exit status, output)` pairs the
`poll` generator would yield (at most `_DELETE_RETRY_COUNT`).  The
bookkeeping runs only when the loop ends without raising. -/
def deleteRun (iqn : String) (ip : Option String)
    (attempts : List (Int × String)) (entry : Option (List IscsiTarget)) :
    DeleteOutcome :=
  match deleteGo (deleteCmd iqn ip) attempts none 0 0 with
  | (.ok, w, n) => ⟨.ok, deleteBookkeeping entry iqn, w, n⟩
  | (e, w, n) => ⟨e, entry, w, n⟩

/-! ### `ISCSIInitiator.discover`

`_parse_discovery_result` splits the command output into lines and
matches each line against `(^\d.*):<port>.*(iqn.*)`, collecting the
matched `(ip, iqn)` pairs into a dict keyed by the pair (so the dict's
value for a key `(ip, iqn)` is always that pair's `iqn` component).  We
model the output as the list of lines, each carrying its optional regex
match; an output with no lines is the empty output (Python's
`if status == 0 and result`). -/

/-- One line of discovery output: `some (ip, iqn)` when the line matches
the `ip:port ... iqn` pattern, `none` otherwise. -/
abbrev DiscoveryLine := Option (String × String)

/-- The `(ip, iqn)` pairs of `_parse_discovery_result`'s dict, in line
order (possibly with duplicates; the dict collapses duplicates, which is
invisible to the membership-level facts proved below). -/
def parsedPairs (res : List DiscoveryLine) : List (String × String) :=
  res.filterMap id

/-- The IQN components of the parsed pairs (`ip_iqn_dict.values()`). -/
def parsedIqns (res : List DiscoveryLine) : List String :=
  (parsedPairs res).map (·.2)

/-- `_is_iqn_subset_of_discovered_iqns`: `set(iqns) <= set(discovered)`. -/
def isIqnSubsetOfDiscoveredIqns (iqns discoveredIqns : List String) : Bool :=
  iqns.all (fun q => discoveredIqns.any (fun d => d == q))

/-- The guard chain under which one polling attempt of `discover`
returns successfully: exit status 0, non-empty output, a non-empty
parsed dict, and the requested IQNs a subset of the discovered ones. -/
def discoverAttemptSucceeds (iqns : List String) (status : Int)
    (res : List DiscoveryLine) : Bool :=
  status == 0 && !res.isEmpty && !(parsedPairs res).isEmpty
    && isIqnSubsetOfDiscoveredIqns iqns (parsedIqns res)

/-- On a successful attempt, `discover` walks the parsed dict and
appends a target for every pair whose IQN was requested, skipping pairs
already present in the host's `DISCOVERED_TARGETS` list (an absent host
entry is created empty first, so it behaves as `[]`). -/
def addMatchedTargets (iqns : List String) (port : Nat) (ifaceName : String)
    (pairs : List (String × String)) (reg : List IscsiTarget) :
    List IscsiTarget :=
  pairs.foldl
    (fun cur p =>
      if iqns.any (fun q => q == p.2) then
        let t : IscsiTarget := ⟨p.1, port, p.2, ifaceName⟩
        if t ∈ cur then cur else cur ++ [t]
      else cur)
    reg

/-- One polling attempt as seen by the `discover` loop: the command's
exit status and parsed output lines, and the wall-clock time elapsed
since `start_time` when the attempt's processing reaches the
`time.time() - start_time > timeout` check. -/
structure DiscoverAttempt where
  status : Int
  res : List DiscoveryLine
  elapsed : Nat
deriving Repr

/-- How `discover` ends: registered the targets and returned; returned
normally *without* registering (the `break` taken when the timeout check
fires, which skips the `for ... else` raise); or raised
`EnvironmentError` when the poll generator was exhausted. -/
inductive DiscoverResult where
  | registered (reg : List IscsiTarget) : DiscoverResult
  | silentReturn (reg : List IscsiTarget) : DiscoverResult
  | envError : DiscoverResult
deriving DecidableEq, Repr

/-- The `for ... else` loop of `ISCSIInitiator.discover` over the poll
results.  A zero-status, non-empty output whose parsed dict is empty
`continue`s (skipping the timeout check); a satisfied subset check
registers and returns; otherwise the timeout check may `break` (silent
return), else the next attempt runs; an exhausted generator raises. -/
def discoverLoop (iqns : List String) (port : Nat) (ifaceName : String)
    (timeout : Nat) : List DiscoverAttempt → List IscsiTarget →
    DiscoverResult
  | [], _ => .envError
  | a :: rest, reg =>
    if a.status == 0 && !a.res.isEmpty then
      if (parsedPairs a.res).isEmpty then
        discoverLoop iqns port ifaceName timeout rest reg
      else if isIqnSubsetOfDiscoveredIqns iqns (parsedIqns a.res) then
        .registered (addMatchedTargets iqns port ifaceName
          (parsedPairs a.res) reg)
      else if timeout < a.elapsed then .silentReturn reg
      else discoverLoop iqns port ifaceName timeout rest reg
    else if timeout < a.elapsed then .silentReturn reg
    else discoverLoop iqns port ifaceName timeout rest reg

/-- `ISCSIInitiator.discover` with a list of IQNs: an empty list is
falsy, so `discover` raises `EnvironmentError("iqn is required")`
before polling; otherwise the loop above runs. -/
def discoverRun (iqns : List String) (port : Nat) (ifaceName : String)
    (timeout : Nat) (attempts : List DiscoverAttempt)
    (reg : List IscsiTarget) : Except String DiscoverResult :=
  if iqns.isEmpty then .error "iqn is required"
  else .ok (discoverLoop iqns port ifaceName timeout attempts reg)

/-! ### `ISCSIInitiator.destroy_iface` -/

/-- The "iface was already deleted" test in `destroy_iface`.  The source
expression is `("Could not delete iface" or "Could not read iface info"
in out)`: Python evaluates the first operand, a non-empty string
literal, as truthy, so the whole test is true for every output. -/
def destroyIfaceAlreadyDeleted (out : String) : Bool :=
  pyOrStrB "Could not delete iface"
    (strContains out "Could not read iface info")

/-- How the `while retries > 0` loop of `destroy_iface` ends:
`loopEnded` (a zero exit `break`, or the retry budget for exit code 6
ran out) falls through to the registry cleanup; `earlyReturn` is the
`return` on the "already deleted" test (skipping the cleanup);
`envError` is the raise — reachable only if the "already deleted" test
could be false. -/
inductive DestroyIfaceResult where
  | loopEnded : DestroyIfaceResult
  | earlyReturn : DestroyIfaceResult
  | envError (cmd : String) (ret : Int) (out : String) : DestroyIfaceResult
deriving DecidableEq, Repr

/-- The `destroy_iface` retry loop: `f k` is the result of the `k`-th
invocation of the delete command, the fuel is the remaining `retries`
counter (initially 10, decremented only on exit code 6). -/
def destroyIfaceGo (cmd : String) (f : Nat → Int × String) :
    Nat → Nat → DestroyIfaceResult
  | 0, _ => .loopEnded
  | n + 1, k =>
    let (r, o) := f k
    if r = 0 then .loopEnded
    else if r = 6 then destroyIfaceGo cmd f n (k + 1)
    else if destroyIfaceAlreadyDeleted o then .earlyReturn
    else .envError cmd r o

/-- The loop of `ISCSIInitiator.destroy_iface` with its initial
`retries = 10` budget. -/
def destroyIfaceRun (ifaceName : String) (f : Nat → Int × String) :
    DestroyIfaceResult :=
  destroyIfaceGo (destroyIfaceCmd ifaceName) f 10 0

/-! ### `ISCSIInitiator.login_all_targets` -/

/-- The argument tuples `(iqn, ip, 3260, iface)` that
`login_all_targets` hands to `Parallel`: one `self.login` call per
element of the host's *whole* `DISCOVERED_TARGETS` list (the loop is
over `DISCOVERED_TARGETS[name]`, not over the iface-filtered list). -/
def loginAllTargetsArgs (discovered : List IscsiTarget) :
    List (String × String × Nat × String) :=
  discovered.map (fun t => (t.iqn, t.ip, 3260, t.iface))

/-- The `len(targets) == 0` test of `login_all_targets`: the warning is
logged exactly when no discovered target has the given iface name. -/
def loginAllTargetsWarns (discovered : List IscsiTarget)
    (ifaceName : String) : Bool :=
  (discovered.filter (fun t => t.iface == ifaceName)).length == 0

/-! ### `qalib.corelibs.ssh.SSH._open_transport` -/

/-- What one `paramiko.Transport(...).connect(...)` attempt does:
succeeds, raises `socket.error`, raises
`paramiko.BadAuthenticationType`, or raises a `paramiko.SSHException`
with the given message. -/
inductive SSHAttempt where
  | success : SSHAttempt
  | sockErr : SSHAttempt
  | badAuth : SSHAttempt
  | sshExc (msg : String) : SSHAttempt
deriving DecidableEq, Repr

/-- How `_open_transport` ends: a connected transport after `used`
attempts; an immediately re-raised `socket.error`,
`BadAuthenticationType` or non-banner `SSHException`; or the
`ConnectionError` raised after the attempt cap. -/
inductive OpenTransportResult where
  | ok (used : Nat) : OpenTransportResult
  | raisedSocket : OpenTransportResult
  | raisedAuth : OpenTransportResult
  | raisedSSH (msg : String) : OpenTransportResult
  | connectionError : OpenTransportResult
deriving DecidableEq, Repr

/-- The transient banner-exchange failure message tested with Python's
`in` (substring) against `str(ex)`. -/
def bannerErrorMsg : String := "Error reading SSH protocol banner"

/-- `retry_attemps = 100` from `SSH._open_transport` (source spelling). -/
def retryAttemps : Nat := 100

/-- The `for attempt in xrange(retry_attemps)` loop of
`_open_transport`: success returns the transport; `socket.error` and
`BadAuthenticationType` re-raise immediately; an `SSHException` whose
message contains the banner error sleeps a randomized 100–200 ms backoff
and retries, any other `SSHException` re-raises; an exhausted loop
raises `ConnectionError`.  (The sleep's duration and randomness are not
modelled; each banner retry corresponds to one such sleep.) -/
def openTransportGo (att : Nat → SSHAttempt) :
    Nat → Nat → OpenTransportResult
  | 0, _ => .connectionError
  | n + 1, k =>
    match att k with
    | .success => .ok (k + 1)
    | .sockErr => .raisedSocket
    | .badAuth => .raisedAuth
    | .sshExc m =>
      if strContains m bannerErrorMsg then openTransportGo att n (k + 1)
      else .raisedSSH m

/-- `SSH._open_transport` with its `retry_attemps = 100` cap. -/
def openTransport (att : Nat → SSHAttempt) : OpenTransportResult :=
  openTransportGo att retryAttemps 0

/-! ### `qalib.corelibs.ssh.Async` — `read()` and `output`

The background reader appends each received chunk to `_output_cache`
(a list of blocks; every appended block is the one-element list
`[data]`, so the cache is in effect a list of strings).  `read()`
returns the blocks from `_last_read_pointer` onward joined together and
advances the pointer to the cache length; `output` joins the whole
cache.  A snapshot of the cache is a `List String`; the reader thread
only ever appends, so successive snapshots extend one another. -/

/-- `Async.output`: everything accumulated so far. -/
def asyncOutput (cache : List String) : String :=
  String.join cache

/-- `Async.read` on a cache snapshot: the returned string and the new
`_last_read_pointer`. -/
def asyncRead (cache : List String) (lastReadPointer : Nat) :
    String × Nat :=
  if !cache.isEmpty ∧ lastReadPointer < cache.length then
    (String.join (cache.drop lastReadPointer), cache.length)
  else ("", lastReadPointer)

/-- A sequence of `read()` calls, the `k`-th against the `k`-th cache
snapshot, accumulating the concatenation of the returned strings. -/
def asyncRunReads : List (List String) → Nat → String → String × Nat
  | [], ptr, acc => (acc, ptr)
  | c :: cs, ptr, acc =>
    let (o, p) := asyncRead c ptr
    asyncRunReads cs p (acc ++ o)

/-- A sample target shared by several concrete evaluations below. -/
def sampleTarget : IscsiTarget := ⟨"10.0.0.1", 3260, "iqn.a", "default"⟩

/-- C2: Invoking logout twice, or delete twice, on the same target
succeeds both times (the second call observes the benign already-gone
exit), and after either the first or the second call the host's registry
no longer contains that target: logout removes it from the logged-in set
(matching by IQN, and by IP as well when an IP is supplied), delete
removes it from the discovered set.

The delete half holds, and both calls do succeed; but the logout half of
the registry claim fails on the code: `remove_iscsi_loggedin_target_using_iqn`
guards its removal loop with `... and not ISCSI_LOGGEDIN_TARGETS[name]`,
so it only runs when the list is already empty — a successful logout
(exit 0) leaves the target in the logged-in registry. -/
theorem logout_delete_idempotence_registry :
    (logoutRun "iqn.a" (some "10.0.0.1") 3260 (some "default")
        [(0, "")] (some [sampleTarget])).result = .ok
    ∧ (logoutRun "iqn.a" (some "10.0.0.1") 3260 (some "default")
        [(0, "")] (some [sampleTarget])).entry = some [sampleTarget]
    ∧ (logoutRun "iqn.a" (some "10.0.0.1") 3260 (some "default")
        [(21, "")] (some [sampleTarget])).result = .ok
    ∧ deleteRun "iqn.a" (some "10.0.0.1") [(0, "")] (some [sampleTarget])
        = ⟨.ok, some [], 0, 1⟩
    ∧ deleteRun "iqn.a" (some "10.0.0.1") [(21, "")] (some [])
        = ⟨.ok, some [], 0, 1⟩ := by
  refine ⟨rfl, rfl, rfl, ?_, ?_⟩ <;> decide

/-- C7: Whenever no polling attempt yields all requested IQNs, discover
is claimed to retry until its timeout elapses or its retry budget is
exhausted and then raise an `EnvironmentError`, never returning normally
without registering.  The code violates this: the
`time.time() - start_time > timeout` check executes `break`, which skips
the `for ... else` raise, so discover returns normally with nothing
registered.  First conjunct: the failing input (timeout exceeded on an
attempt that found only an unrelated IQN) returns silently.  Second
conjunct: when the retry budget is exhausted instead, discover does
raise as claimed. -/
theorem discover_timeout_silent_return :
    discoverRun ["iqn.a"] 3260 "default" 100
        [⟨0, [some ("10.0.0.1", "iqn.b")], 101⟩] []
      = Except.ok (DiscoverResult.silentReturn [])
    ∧ discoverRun ["iqn.a"] 3260 "default" 100
        [⟨0, [some ("10.0.0.1", "iqn.b")], 50⟩] []
      = Except.ok DiscoverResult.envError := by
  constructor <;> rfl

/-- C8: destroy_iface is claimed to raise an environment-level error for
every non-benign non-zero exit status.  The code's "already deleted"
test is `("Could not delete iface" or "Could not read iface info" in
out)`, which Python evaluates as the truthy string literal, so the test
holds for *every* output and the raise is unreachable: any non-zero,
non-6 exit returns successfully (second conjunct shows the test is
constantly true; first evaluates the loop at an arbitrary failing
output). -/
theorem destroy_iface_never_raises :
    destroyIfaceRun "ifc0" (fun _ => (1, "disk on fire"))
        = DestroyIfaceResult.earlyReturn
    ∧ ∀ out : String, destroyIfaceAlreadyDeleted out = true := by
  constructor
  · decide
  · intro out
    rfl

/-- C10: `login_all_targets(iface_name=I)` issues a login attempt for
every target in the host's discovered-targets registry — its loop runs
over the whole `DISCOVERED_TARGETS` list, including targets whose
interface is not `I` (first and second conjuncts: every discovered
target contributes its own argument tuple, one per registry entry, with
no reference to `I`); the iface-filtered list only controls the
zero-targets warning (third conjunct). -/
theorem login_all_targets_ignores_iface (discovered : List IscsiTarget)
    (ifaceName : String) :
    (∀ t ∈ discovered,
        (t.iqn, t.ip, 3260, t.iface) ∈ loginAllTargetsArgs discovered)
    ∧ (loginAllTargetsArgs discovered).length = discovered.length
    ∧ (loginAllTargetsWarns discovered ifaceName = true ↔
        ∀ t ∈ discovered, t.iface ≠ ifaceName) := by
  refine ⟨?_, ?_, ?_⟩
  · intro t ht
    exact List.mem_map.mpr ⟨t, ht, rfl⟩
  · simp [loginAllTargetsArgs]
  · simp [loginAllTargetsWarns, List.length_eq_zero, List.filter_eq_nil_iff]

/-- Witness for `login_all_targets_ignores_iface`: a target on iface
`eth1` still gets a login tuple when the call is made for `default`. -/
theorem login_all_targets_ignores_iface_witness :
    ("iqn.a", "10.0.0.1", 3260, "eth1")
        ∈ loginAllTargetsArgs [⟨"10.0.0.1", 3260, "iqn.a", "eth1"⟩]
    ∧ loginAllTargetsWarns [⟨"10.0.0.1", 3260, "iqn.a", "eth1"⟩] "default"
        = true :=
  ⟨(login_all_targets_ignores_iface
      [⟨"10.0.0.1", 3260, "iqn.a", "eth1"⟩] "default").1
      ⟨"10.0.0.1", 3260, "iqn.a", "eth1"⟩ (by simp),
   (login_all_targets_ignores_iface
      [⟨"10.0.0.1", 3260, "iqn.a", "eth1"⟩] "default").2.2.mpr
      (by intro t ht; simp at ht; subst ht; decide)⟩

/-! ### Lemmas about `String.join` and the `Async` read cursor -/

theorem strJoin_foldl (s : String) (l : List String) :
    l.foldl (· ++ ·) s = s ++ String.join l := by
  induction l generalizing s with
  | nil => simp [String.join, String.append_empty]
  | cons a t ih =>
    show t.foldl (· ++ ·) (s ++ a) = s ++ String.join (a :: t)
    rw [ih]
    show s ++ a ++ String.join t = s ++ t.foldl (· ++ ·) ("" ++ a)
    rw [ih, String.empty_append, String.append_assoc]

theorem strJoin_append (xs ys : List String) :
    String.join (xs ++ ys) = String.join xs ++ String.join ys := by
  show (xs ++ ys).foldl (· ++ ·) "" = _
  rw [List.foldl_append, strJoin_foldl]
  rfl

theorem asyncRunReads_cons (c : List String) (cs : List (List String))
    (ptr : Nat) (acc : String) :
    asyncRunReads (c :: cs) ptr acc
      = asyncRunReads cs (asyncRead c ptr).2 (acc ++ (asyncRead c ptr).1) :=
  rfl

/-- One `read()` against a snapshot the cursor lags: the pieces read so
far plus the returned string make up the whole output, and the cursor
lands at the snapshot's end. -/
theorem asyncRead_step (c : List String) (ptr : Nat) (h : ptr ≤ c.length) :
    String.join (c.take ptr) ++ (asyncRead c ptr).1 = asyncOutput c
    ∧ (asyncRead c ptr).2 = c.length := by
  unfold asyncRead asyncOutput
  by_cases hc : !c.isEmpty ∧ ptr < c.length
  · rw [if_pos hc]
    exact ⟨by rw [← strJoin_append, List.take_append_drop], rfl⟩
  · rw [if_neg hc]
    have hp : ptr = c.length := by
      by_cases he : c.isEmpty
      · have : c = [] := List.isEmpty_iff.mp he
        subst this
        simp only [List.length_nil] at h ⊢
        omega
      · have : ¬ ptr < c.length := by
          intro hlt
          exact hc ⟨by simp [he], hlt⟩
        omega
    exact ⟨by rw [String.append_empty, hp, List.take_length], hp⟩

/-- Folding `read()` over a chain of append-only snapshots, starting
from a cursor consistent with the first snapshot, ends with the whole
last snapshot's output accumulated and the cursor at its end. -/
theorem asyncRunReads_chain (cs : List (List String)) :
    ∀ (c : List String) (ptr : Nat) (acc : String),
      List.Chain' (fun a b => ∃ t2, b = a ++ t2) (c :: cs) →
      ptr ≤ c.length → acc = String.join (c.take ptr) →
      asyncRunReads (c :: cs) ptr acc
        = (asyncOutput ((c :: cs).getLast (List.cons_ne_nil c cs)),
           ((c :: cs).getLast (List.cons_ne_nil c cs)).length) := by
  induction cs with
  | nil =>
    intro c ptr acc _ hle hacc
    rw [asyncRunReads_cons]
    show (acc ++ (asyncRead c ptr).1, (asyncRead c ptr).2) = _
    obtain ⟨h1, h2⟩ := asyncRead_step c ptr hle
    rw [hacc, h1, h2]
    rfl
  | cons c' cs' ih =>
    intro c ptr acc hchain hle hacc
    rw [asyncRunReads_cons]
    obtain ⟨h1, h2⟩ := asyncRead_step c ptr hle
    obtain ⟨hext, hchain'⟩ := List.chain'_cons.mp hchain
    obtain ⟨t2, ht2⟩ := hext
    have hle' : c.length ≤ c'.length := by
      rw [ht2, List.length_append]
      omega
    have hacc' : acc ++ (asyncRead c ptr).1 = String.join (c'.take c.length) := by
      rw [hacc, h1, ht2, List.take_left]
      rfl
    rw [h2]
    rw [ih c' c.length (acc ++ (asyncRead c ptr).1) hchain' hle' hacc']
    rfl

/-- C9: `read()` returns exactly the output appended since the previous
`read()` (first conjunct: with the cursor at the end of the
previously-seen cache `c₀`, reading the grown cache `c₀ ++ new` returns
the join of `new` and moves the cursor to the new end); consequently the
concatenation of successive `read()` results over any append-only
sequence of cache snapshots equals the `output` property of the snapshot
seen by the last read (second conjunct); and `output` always returns
everything accumulated so far (third conjunct). -/
theorem async_read_cursor (c₀ new : List String) (cs : List (List String))
    (hchain : List.Chain' (fun a b => ∃ t2, b = a ++ t2) cs)
    (hne : cs ≠ []) :
    asyncRead (c₀ ++ new) c₀.length = (String.join new, (c₀ ++ new).length)
    ∧ (asyncRunReads cs 0 "").1 = asyncOutput (cs.getLast hne)
    ∧ ∀ cache : List String, asyncOutput cache = String.join cache := by
  refine ⟨?_, ?_, fun _ => rfl⟩
  · by_cases hn : new = []
    · subst hn
      rw [List.append_nil]
      unfold asyncRead
      rw [if_neg]
      · rfl
      · rintro ⟨-, hlt⟩
        omega
    · have hlen : new.length ≠ 0 := fun h => hn (List.length_eq_zero.mp h)
      unfold asyncRead
      rw [if_pos]
      · rw [List.drop_left]
      · refine ⟨?_, ?_⟩
        · simp [hn]
        · rw [List.length_append]
          omega
  · match cs, hne with
    | c :: cs', _ =>
      rw [asyncRunReads_chain cs' c 0 "" hchain (Nat.zero_le _) rfl]

/-- Witness for `async_read_cursor`: cache grew from `["a"]` to
`["a", "b"]`; the second read returns `"b"`, and the reads over the
two snapshots concatenate to the final output `"ab"`. -/
theorem async_read_cursor_witness :
    asyncRead ["a", "b"] 1 = ("b", 2)
    ∧ (asyncRunReads [["a"], ["a", "b"]] 0 "").1 = "ab" :=
  ⟨(async_read_cursor ["a"] ["b"] [["a"], ["a", "b"]]
      (List.chain'_cons.mpr ⟨⟨["b"], rfl⟩, List.chain'_singleton _⟩)
      (List.cons_ne_nil _ _)).1,
   (async_read_cursor ["a"] ["b"] [["a"], ["a", "b"]]
      (List.chain'_cons.mpr ⟨⟨["b"], rfl⟩, List.chain'_singleton _⟩)
      (List.cons_ne_nil _ _)).2.1⟩

/-! ### Lemmas about `_open_transport` -/

theorem openTransportGo_succ (att : Nat → SSHAttempt) (n k : Nat) :
    openTransportGo att (n + 1) k
      = match att k with
        | .success => .ok (k + 1)
        | .sockErr => .raisedSocket
        | .badAuth => .raisedAuth
        | .sshExc m =>
          if strContains m bannerErrorMsg then openTransportGo att n (k + 1)
          else .raisedSSH m :=
  rfl

theorem listStarts_self (l : List Char) : listStarts l l = true := by
  induction l with
  | nil => rfl
  | cons c cs ih => simp [listStarts, ih]

theorem strContains_self (s : String) : strContains s s = true := by
  unfold strContains
  cases h : s.data with
  | nil => rfl
  | cons c cs => simp [containsSub, listStarts_self]

theorem openTransportGo_banner (att : Nat → SSHAttempt)
    (h : ∀ k, att k = .sshExc bannerErrorMsg) :
    ∀ n k, openTransportGo att n k = .connectionError := by
  intro n
  induction n with
  | zero => intro k; rfl
  | succ n ih =>
    intro k
    rw [openTransportGo_succ, h k]
    simp only [strContains_self, if_true]
    exact ih (k + 1)

/-- C6: `_open_transport` retries only on the transient banner-exchange
`SSHException` (fourth conjunct: a banner failure consumes one attempt
of the budget and loops — the sleep between attempts is the randomized
100–200 ms backoff, not modelled numerically), up to the fixed cap of
100 attempts after which it raises `ConnectionError` (third conjunct);
an authentication failure propagates on the first attempt with no retry
(first conjunct); any other `SSHException` also propagates at once
(second conjunct). -/
theorem ssh_open_transport_retry (att : Nat → SSHAttempt) (m : String) :
    (att 0 = .badAuth → openTransport att = .raisedAuth)
    ∧ (att 0 = .sshExc m → strContains m bannerErrorMsg = false →
        openTransport att = .raisedSSH m)
    ∧ ((∀ k, att k = .sshExc bannerErrorMsg) →
        openTransport att = .connectionError)
    ∧ (∀ n k, att k = .sshExc m → strContains m bannerErrorMsg = true →
        openTransportGo att (n + 1) k = openTransportGo att n (k + 1)) := by
  refine ⟨?_, ?_, ?_, ?_⟩
  · intro h
    show openTransportGo att retryAttemps 0 = _
    rw [show retryAttemps = 99 + 1 from rfl, openTransportGo_succ, h]
  · intro h hm
    show openTransportGo att retryAttemps 0 = _
    rw [show retryAttemps = 99 + 1 from rfl, openTransportGo_succ, h]
    simp [hm]
  · intro h
    exact openTransportGo_banner att h retryAttemps 0
  · intro n k h hm
    rw [openTransportGo_succ, h]
    simp [hm]

/-- Witness for `ssh_open_transport_retry`: an immediately-failing
authentication and a permanently banner-failing server. -/
theorem ssh_open_transport_retry_witness :
    openTransport (fun _ => SSHAttempt.badAuth)
        = OpenTransportResult.raisedAuth
    ∧ openTransport (fun _ => SSHAttempt.sshExc bannerErrorMsg)
        = OpenTransportResult.connectionError :=
  ⟨(ssh_open_transport_retry (fun _ => SSHAttempt.badAuth) "x").1 rfl,
   (ssh_open_transport_retry (fun _ => SSHAttempt.sshExc bannerErrorMsg)
      "x").2.2.1 (fun _ => rfl)⟩

/-! ### Lemmas about the logout / delete retry loops -/

theorem getLast?_or_shift {α : Type} (a : α) (l : List α) (last : Option α) :
    ((a :: l).getLast?).or last = (l.getLast?).or (some a) := by
  cases l with
  | nil => rfl
  | cons b t =>
    rw [List.getLast?_cons_cons]
    obtain ⟨x, hx⟩ := Option.isSome_iff_exists.mp (List.getLast?_isSome.mpr (List.cons_ne_nil b t))
    rw [hx]
    rfl

theorem logoutGo_result_ok_iff (cmd : String) (ip : Option String)
    (iqn : String) (attempts : List (Int × String)) :
    ∀ (last : Option (Int × String)) (entry : Option (List IscsiTarget))
      (w n : Nat),
      (logoutGo cmd ip iqn attempts last entry w n).result = .ok ↔
        ∃ p ∈ attempts, p.1 = 0 ∨ logoutBenign p.1 p.2 = true := by
  induction attempts with
  | nil => intro last entry w n; simp [logoutGo]
  | cons p rest ih =>
    intro last entry w n
    obtain ⟨r, o⟩ := p
    by_cases h0 : r = 0
    · subst h0
      simp [logoutGo]
    · by_cases hb : logoutBenign r o = true
      · simp [logoutGo, h0, hb]
      · simp [logoutGo, h0, hb, ih]

theorem logoutGo_all_fail (cmd : String) (ip : Option String)
    (iqn : String) (attempts : List (Int × String))
    (h : ∀ p ∈ attempts, p.1 ≠ 0 ∧ logoutBenign p.1 p.2 = false) :
    ∀ (last : Option (Int × String)) (entry : Option (List IscsiTarget))
      (w n : Nat),
      logoutGo cmd ip iqn attempts last entry w n
        = ⟨.envError cmd (((attempts.getLast?).or last).map (·.1))
              (((attempts.getLast?).or last).map (·.2)),
           entry, w + (attempts.countP (fun p => p.1 == 6)),
           n + attempts.length⟩ := by
  induction attempts with
  | nil => intro last entry w n; simp [logoutGo]
  | cons p rest ih =>
    intro last entry w n
    obtain ⟨r, o⟩ := p
    obtain ⟨h0, hb⟩ := h (r, o) (List.mem_cons_self _ _)
    have hrest : ∀ p ∈ rest, p.1 ≠ 0 ∧ logoutBenign p.1 p.2 = false :=
      fun p hp => h p (List.mem_cons_of_mem _ hp)
    rw [show logoutGo cmd ip iqn ((r, o) :: rest) last entry w n
        = logoutGo cmd ip iqn rest (some (r, o)) entry
            (if r = 6 then w + 1 else w) (n + 1) from by
      simp [logoutGo, h0, hb]]
    rw [ih hrest]
    rw [getLast?_or_shift]
    by_cases h6 : r = 6
    · subst h6
      simp [List.countP_cons]
      omega
    · simp [List.countP_cons, h6]
      omega

theorem deleteGo_all_fail (cmd : String) (attempts : List (Int × String))
    (h : ∀ p ∈ attempts, p.1 ≠ 0 ∧ p.1 ≠ 21
        ∧ strContains p.2 "No records found" = false) :
    ∀ (last : Option (Int × String)) (w n : Nat),
      deleteGo cmd attempts last w n
        = (.envError cmd (((attempts.getLast?).or last).map (·.1))
              (((attempts.getLast?).or last).map (·.2)),
           w + (attempts.countP (fun p => p.1 == 6)),
           n + attempts.length) := by
  induction attempts with
  | nil => intro last w n; simp [deleteGo]
  | cons p rest ih =>
    intro last w n
    obtain ⟨r, o⟩ := p
    obtain ⟨h0, h21, hnr⟩ := h (r, o) (List.mem_cons_self _ _)
    have hrest : ∀ p ∈ rest, p.1 ≠ 0 ∧ p.1 ≠ 21
        ∧ strContains p.2 "No records found" = false :=
      fun p hp => h p (List.mem_cons_of_mem _ hp)
    rw [show deleteGo cmd ((r, o) :: rest) last w n
        = deleteGo cmd rest (some (r, o))
            (if r = 6 then w + 1 else w) (n + 1) from by
      simp [deleteGo, h0, h21, hnr]]
    rw [ih hrest]
    rw [getLast?_or_shift]
    by_cases h6 : r = 6
    · subst h6
      simp [List.countP_cons]
      omega
    · simp [List.countP_cons, h6]
      omega

/-- C3: the logout loop classifies each command outcome: it succeeds
without raising exactly when some polled attempt has exit code 0 or a
benign outcome — exit code 3, 7 or 21, or an output equal to a
no-matching-session message (first conjunct); if every attempt stays
non-zero and non-benign, it raises `EnvironmentError` carrying the
command string and the last exit status and output (second conjunct);
a transient exit code 6 logs one warning and consumes one more bounded
attempt (third conjunct). -/
theorem logout_outcome_classification (iqn : String) (ip : Option String)
    (port : Nat) (ifname : Option String) (attempts : List (Int × String))
    (entry : Option (List IscsiTarget)) :
    ((logoutRun iqn ip port ifname attempts entry).result = .ok ↔
        ∃ p ∈ attempts, p.1 = 0 ∨ logoutBenign p.1 p.2 = true)
    ∧ ((∀ p ∈ attempts, p.1 ≠ 0 ∧ logoutBenign p.1 p.2 = false) →
        (logoutRun iqn ip port ifname attempts entry).result =
          .envError (logoutCmd iqn ip port ifname)
            ((attempts.getLast?).map (·.1))
            ((attempts.getLast?).map (·.2)))
    ∧ (∀ (o : String) (rest : List (Int × String))
        (last : Option (Int × String)) (w n : Nat),
        logoutBenign 6 o = false →
        logoutGo (logoutCmd iqn ip port ifname) ip iqn ((6, o) :: rest)
            last entry w n
          = logoutGo (logoutCmd iqn ip port ifname) ip iqn rest
              (some (6, o)) entry (w + 1) (n + 1)) := by
  refine ⟨?_, ?_, ?_⟩
  · exact logoutGo_result_ok_iff _ ip iqn attempts none entry 0 0
  · intro h
    rw [show logoutRun iqn ip port ifname attempts entry
        = logoutGo (logoutCmd iqn ip port ifname) ip iqn attempts none
            entry 0 0 from rfl]
    rw [logoutGo_all_fail _ ip iqn attempts h none entry 0 0]
    simp
  · intro o rest last w n hb
    simp [logoutGo, hb]

/-- Witness for `logout_outcome_classification`: exit 0 succeeds; a
persistent exit 5 raises with the command, status and output; a 6 first
attempt retries with one warning logged. -/
theorem logout_outcome_classification_witness :
    (logoutRun "iqn.x" none 3260 (some "default") [(0, "")] none).result
        = .ok
    ∧ (logoutRun "iqn.x" none 3260 (some "default") [(5, "boom")]
          none).result
        = .envError (logoutCmd "iqn.x" none 3260 (some "default"))
            (some 5) (some "boom")
    ∧ logoutGo (logoutCmd "iqn.x" none 3260 (some "default")) none "iqn.x"
          [(6, "busy")] none none 0 0
        = logoutGo (logoutCmd "iqn.x" none 3260 (some "default")) none
            "iqn.x" [] (some (6, "busy")) none 1 1 :=
  ⟨(logout_outcome_classification "iqn.x" none 3260 (some "default")
      [(0, "")] none).1.mpr ⟨(0, ""), by simp, Or.inl rfl⟩,
   (logout_outcome_classification "iqn.x" none 3260 (some "default")
      [(5, "boom")] none).2.1 (by decide),
   (logout_outcome_classification "iqn.x" none 3260 (some "default")
      [] none).2.2 "busy" [] none 0 0 (by decide)⟩

theorem getLast?_replicate_succ {α : Type} (n : Nat) (a : α) :
    (List.replicate (n + 1) a).getLast? = some a := by
  induction n with
  | zero => rfl
  | succ n ih =>
    rw [List.replicate_succ, List.replicate_succ, List.getLast?_cons_cons,
      ← List.replicate_succ, ih]

/-- C4: against a command stub that always returns the transient busy
exit code 6, the logout loop consumes exactly `_LOGOUT_RETRY_COUNT = 12`
poll attempts — the whole trace the `poll` generator produces for
`retries=12` — and then raises `EnvironmentError`; the delete loop
likewise consumes exactly `_DELETE_RETRY_COUNT = 12` attempts and
raises.  Neither retries beyond its bounded budget. -/
theorem retry_budget_exhaustion (iqn : String) (ip : Option String)
    (port : Nat) (ifname : Option String)
    (entry : Option (List IscsiTarget)) (o : String)
    (hb : logoutBenign 6 o = false)
    (hnr : strContains o "No records found" = false) :
    (logoutRun iqn ip port ifname
        (pollTrace (fun _ => ((6 : Int), o)) (fun _ => 0)
          (some LOGOUT_RETRY_COUNT) (some ISCSIADM_RETRY_INTERVAL) none)
        entry).consumed = LOGOUT_RETRY_COUNT
    ∧ (logoutRun iqn ip port ifname
        (pollTrace (fun _ => ((6 : Int), o)) (fun _ => 0)
          (some LOGOUT_RETRY_COUNT) (some ISCSIADM_RETRY_INTERVAL) none)
        entry).result
        = .envError (logoutCmd iqn ip port ifname) (some 6) (some o)
    ∧ (deleteRun iqn ip
        (pollTrace (fun _ => ((6 : Int), o)) (fun _ => 0)
          (some DELETE_RETRY_COUNT) (some ISCSIADM_RETRY_INTERVAL) none)
        entry).consumed = DELETE_RETRY_COUNT
    ∧ (deleteRun iqn ip
        (pollTrace (fun _ => ((6 : Int), o)) (fun _ => 0)
          (some DELETE_RETRY_COUNT) (some ISCSIADM_RETRY_INTERVAL) none)
        entry).result
        = .envError (deleteCmd iqn ip) (some 6) (some o) := by
  have hTL : pollTrace (fun _ => ((6 : Int), o)) (fun _ => 0)
      (some LOGOUT_RETRY_COUNT) (some ISCSIADM_RETRY_INTERVAL) none
      = List.replicate 12 (6, o) := by
    rw [pollTrace,
      show pollCount (fun _ => 0) (some LOGOUT_RETRY_COUNT)
        (some ISCSIADM_RETRY_INTERVAL) none = 12 from rfl]
    simp [List.map_const']
  have hTD : pollTrace (fun _ => ((6 : Int), o)) (fun _ => 0)
      (some DELETE_RETRY_COUNT) (some ISCSIADM_RETRY_INTERVAL) none
      = List.replicate 12 (6, o) := by
    rw [pollTrace,
      show pollCount (fun _ => 0) (some DELETE_RETRY_COUNT)
        (some ISCSIADM_RETRY_INTERVAL) none = 12 from rfl]
    simp [List.map_const']
  have hfail : ∀ p ∈ List.replicate 12 ((6 : Int), o),
      p.1 ≠ 0 ∧ logoutBenign p.1 p.2 = false := by
    intro p hp
    rw [List.eq_of_mem_replicate hp]
    exact ⟨by omega, hb⟩
  have hfailD : ∀ p ∈ List.replicate 12 ((6 : Int), o),
      p.1 ≠ 0 ∧ p.1 ≠ 21 ∧ strContains p.2 "No records found" = false := by
    intro p hp
    rw [List.eq_of_mem_replicate hp]
    exact ⟨by omega, by omega, hnr⟩
  have hlast : (List.replicate 12 ((6 : Int), o)).getLast? = some (6, o) :=
    getLast?_replicate_succ 11 (6, o)
  have hlog : logoutRun iqn ip port ifname (List.replicate 12 (6, o)) entry
      = ⟨.envError (logoutCmd iqn ip port ifname) (some 6) (some o), entry,
         0 + (List.replicate 12 ((6 : Int), o)).countP (fun p => p.1 == 6),
         0 + (List.replicate 12 ((6 : Int), o)).length⟩ := by
    rw [show logoutRun iqn ip port ifname (List.replicate 12 (6, o)) entry
        = logoutGo (logoutCmd iqn ip port ifname) ip iqn
            (List.replicate 12 (6, o)) none entry 0 0 from rfl]
    rw [logoutGo_all_fail _ ip iqn _ hfail none entry 0 0, hlast]
    rfl
  have hdel : deleteRun iqn ip (List.replicate 12 (6, o)) entry
      = ⟨.envError (deleteCmd iqn ip) (some 6) (some o), entry,
         0 + (List.replicate 12 ((6 : Int), o)).countP (fun p => p.1 == 6),
         0 + (List.replicate 12 ((6 : Int), o)).length⟩ := by
    rw [deleteRun, deleteGo_all_fail _ _ hfailD none 0 0, hlast]
    rfl
  refine ⟨?_, ?_, ?_, ?_⟩
  · rw [hTL, hlog]
    simp [LOGOUT_RETRY_COUNT]
  · rw [hTL, hlog]
  · rw [hTD, hdel]
    simp [DELETE_RETRY_COUNT]
  · rw [hTD, hdel]

/-- Witness for `retry_budget_exhaustion` at the stub output `"x"`. -/
theorem retry_budget_exhaustion_witness :
    (logoutRun "iqn.x" none 3260 (some "default")
        (pollTrace (fun _ => ((6 : Int), "x")) (fun _ => 0)
          (some LOGOUT_RETRY_COUNT) (some ISCSIADM_RETRY_INTERVAL) none)
        none).consumed = LOGOUT_RETRY_COUNT
    ∧ (deleteRun "iqn.x" none
        (pollTrace (fun _ => ((6 : Int), "x")) (fun _ => 0)
          (some DELETE_RETRY_COUNT) (some ISCSIADM_RETRY_INTERVAL) none)
        none).result
        = .envError (deleteCmd "iqn.x" none) (some 6) (some "x") :=
  ⟨(retry_budget_exhaustion "iqn.x" none 3260 (some "default") none "x"
      (by decide) (by decide)).1,
   (retry_budget_exhaustion "iqn.x" none 3260 (some "default") none "x"
      (by decide) (by decide)).2.2.2⟩

/-! ### Lemmas about discovery -/

theorem mem_addMatchedTargets (iqns : List String) (port : Nat)
    (iface : String) (pairs : List (String × String)) (t : IscsiTarget) :
    ∀ reg : List IscsiTarget,
      (t ∈ addMatchedTargets iqns port iface pairs reg ↔
        t ∈ reg ∨ ∃ p ∈ pairs, p.2 ∈ iqns ∧ t = ⟨p.1, port, p.2, iface⟩) := by
  induction pairs with
  | nil => intro reg; simp [addMatchedTargets]
  | cons p ps ih =>
    intro reg
    obtain ⟨pip, piqn⟩ := p
    rw [show addMatchedTargets iqns port iface ((pip, piqn) :: ps) reg
        = addMatchedTargets iqns port iface ps
            (if iqns.any (fun q => q == piqn) then
              if (⟨pip, port, piqn, iface⟩ : IscsiTarget) ∈ reg then reg
              else reg ++ [⟨pip, port, piqn, iface⟩]
            else reg) from rfl]
    rw [ih]
    by_cases hq : iqns.any (fun q => q == piqn) = true
    · have hmem : piqn ∈ iqns := by
        obtain ⟨q, hq1, hq2⟩ := List.any_eq_true.mp hq
        exact (beq_iff_eq.mp hq2) ▸ hq1
      by_cases hin : (⟨pip, port, piqn, iface⟩ : IscsiTarget) ∈ reg
      · simp only [hq, if_true, hin]
        constructor
        · rintro (h | h)
          · exact Or.inl h
          · exact Or.inr (by
              obtain ⟨p, hp1, hp2⟩ := h
              exact ⟨p, List.mem_cons_of_mem _ hp1, hp2⟩)
        · rintro (h | ⟨p, hp1, hp2, hp3⟩)
          · exact Or.inl h
          · rcases List.mem_cons.mp hp1 with h1 | h1
            · subst h1
              exact Or.inl (hp3 ▸ hin)
            · exact Or.inr ⟨p, h1, hp2, hp3⟩
      · simp only [hq, if_true, hin, if_false, List.mem_append,
          List.mem_singleton]
        constructor
        · rintro ((h | h) | h)
          · exact Or.inl h
          · exact Or.inr ⟨(pip, piqn), List.mem_cons_self _ _, hmem, h⟩
          · obtain ⟨p, hp1, hp2⟩ := h
            exact Or.inr ⟨p, List.mem_cons_of_mem _ hp1, hp2⟩
        · rintro (h | ⟨p, hp1, hp2, hp3⟩)
          · exact Or.inl (Or.inl h)
          · rcases List.mem_cons.mp hp1 with h1 | h1
            · subst h1
              exact Or.inl (Or.inr hp3)
            · exact Or.inr ⟨p, h1, hp2, hp3⟩
    · have hq' : iqns.any (fun q => q == piqn) = false :=
        Bool.not_eq_true _ ▸ (by simpa using hq)
      have hnot : ¬ piqn ∈ iqns := by
        intro hmem
        rw [List.any_eq_true] at hq
        exact hq ⟨piqn, hmem, beq_self_eq_true piqn⟩
      simp only [hq', Bool.false_eq_true, if_false]
      constructor
      · rintro (h | ⟨p, hp1, hp2⟩)
        · exact Or.inl h
        · exact Or.inr ⟨p, List.mem_cons_of_mem _ hp1, hp2⟩
      · rintro (h | ⟨p, hp1, hp2, hp3⟩)
        · exact Or.inl h
        · rcases List.mem_cons.mp hp1 with h1 | h1
          · subst h1
            exact absurd hp2 hnot
          · exact Or.inr ⟨p, h1, hp2, hp3⟩

/-- C1: for a non-empty requested IQN list `L`, a polling attempt whose
discovery command exited 0 makes `discover` return successfully exactly
when the IQN set parsed from that attempt's output contains all of `L`
(first conjunct, with the loop-level consequence in the second); on
success the host's discovered-targets registry afterwards holds exactly
its previous members plus the parsed `(address, iqn)` pairs whose IQN is
in `L` (third conjunct) — so extra unrelated IQNs in the output neither
cause failure (they are harmless to the subset test) nor get added (the
third conjunct's right side requires `p.2 ∈ L`). -/
theorem discover_attempt_subset (L : List String) (hL : L ≠ [])
    (status : Int) (res : List DiscoveryLine) (port : Nat) (iface : String)
    (timeout elapsed : Nat) (rest : List DiscoverAttempt)
    (reg : List IscsiTarget) :
    (status = 0 →
      (discoverAttemptSucceeds L status res = true ↔
        ∀ q ∈ L, q ∈ parsedIqns res))
    ∧ (discoverAttemptSucceeds L status res = true →
        discoverLoop L port iface timeout (⟨status, res, elapsed⟩ :: rest) reg
          = .registered (addMatchedTargets L port iface (parsedPairs res) reg))
    ∧ (∀ t : IscsiTarget,
        t ∈ addMatchedTargets L port iface (parsedPairs res) reg ↔
          t ∈ reg ∨ ∃ p ∈ parsedPairs res, p.2 ∈ L
            ∧ t = ⟨p.1, port, p.2, iface⟩) := by
  refine ⟨?_, ?_, fun t => mem_addMatchedTargets L port iface (parsedPairs res) t reg⟩
  · intro hs
    subst hs
    simp only [discoverAttemptSucceeds, Bool.and_eq_true, beq_self_eq_true,
      true_and, Bool.not_eq_true']
    constructor
    · rintro ⟨⟨h1, h2⟩, h3⟩
      intro q hq
      have hany := List.all_eq_true.mp h3 q hq
      obtain ⟨d, hd1, hd2⟩ := List.any_eq_true.mp hany
      exact (beq_iff_eq.mp hd2) ▸ hd1
    · intro h
      obtain ⟨q0, hq0⟩ : ∃ q, q ∈ L := by
        cases L with
        | nil => exact absurd rfl hL
        | cons a l => exact ⟨a, List.mem_cons_self a l⟩
      have hqi : q0 ∈ parsedIqns res := h q0 hq0
      have hpairs : ¬ (parsedPairs res).isEmpty = true := by
        intro hemp
        rw [List.isEmpty_iff] at hemp
        rw [parsedIqns, hemp] at hqi
        simp at hqi
      have hres : ¬ res.isEmpty = true := by
        intro hemp
        rw [List.isEmpty_iff] at hemp
        apply hpairs
        rw [parsedPairs, hemp]
        rfl
      refine ⟨⟨by simpa using hres, by simpa using hpairs⟩, ?_⟩
      rw [isIqnSubsetOfDiscoveredIqns, List.all_eq_true]
      intro q hq
      rw [List.any_eq_true]
      exact ⟨q, h q hq, beq_self_eq_true q⟩
  · intro h
    have h' := h
    simp only [discoverAttemptSucceeds, Bool.and_eq_true] at h'
    obtain ⟨⟨⟨ha, hb⟩, hc⟩, hd⟩ := h'
    show (if (status == 0 && !res.isEmpty) = true then _ else _) = _
    rw [if_pos (by rw [Bool.and_eq_true]; exact ⟨ha, hb⟩)]
    simp only [Bool.not_eq_true'] at hc
    rw [if_neg (by simp [hc])]
    rw [if_pos hd]

/-- Witness for `discover_attempt_subset`: requested `["iqn.a"]`, output
carrying both `iqn.a` and the unrelated `iqn.zz` — the attempt succeeds,
the matching pair is registered, the unrelated one is not. -/
theorem discover_attempt_subset_witness :
    discoverAttemptSucceeds ["iqn.a"] 0
        [some ("10.0.0.1", "iqn.a"), some ("10.0.0.2", "iqn.zz"), none]
        = true
    ∧ (⟨"10.0.0.1", 3260, "iqn.a", "default"⟩ : IscsiTarget)
        ∈ addMatchedTargets ["iqn.a"] 3260 "default"
            (parsedPairs [some ("10.0.0.1", "iqn.a"),
              some ("10.0.0.2", "iqn.zz"), none]) []
    ∧ ¬ (⟨"10.0.0.2", 3260, "iqn.zz", "default"⟩ : IscsiTarget)
        ∈ addMatchedTargets ["iqn.a"] 3260 "default"
            (parsedPairs [some ("10.0.0.1", "iqn.a"),
              some ("10.0.0.2", "iqn.zz"), none]) [] := by
  have hth := discover_attempt_subset ["iqn.a"] (by decide) 0
    [some ("10.0.0.1", "iqn.a"), some ("10.0.0.2", "iqn.zz"), none]
    3260 "default" 100 0 [] []
  refine ⟨(hth.1 rfl).mpr (by decide), ?_, ?_⟩
  · exact (hth.2.2 _).mpr (Or.inr ⟨("10.0.0.1", "iqn.a"), by decide, by decide, rfl⟩)
  · intro hmem
    exact absurd ((hth.2.2 _).mp hmem) (by decide)

/-! ### Lemmas about the polling budget -/

theorem pollCountGo_le (d : Nat → Nat) (i t : Nat) :
    ∀ (n k e : Nat), pollCountGo d i t n k e ≤ n := by
  intro n
  induction n with
  | zero => intro k e; simp [pollCountGo]
  | succ n ih =>
    intro k e
    rw [pollCountGo]
    split
    · have := ih (k + 1) (e + d k + i)
      omega
    · omega

/-- C5 counterexample: the claim says a supplied timeout takes
precedence and the effective retry count becomes `int(timeout /
interval)`.  With `retries=3, interval=1, timeout=0` the `if timeout:`
truthiness test is false, so the effective retry count stays `3`, not
`int(0 / 1) = 0`. -/
theorem poll_timeout_zero_counterexample :
    (pollEffective (some 3) (some 1) (some 0)).1 = 3
    ∧ (0 : Nat) / 1 = 0 ∧ (3 : Nat) ≠ 0 := by
  decide

/-- C5 amended: when a *non-zero* timeout is supplied it takes
precedence over the retries argument and the effective retry count
becomes `int(timeout / interval)` (first conjunct); each attempt's
result is yielded lazily — the `k`-th yield is the `k`-th invocation's
result (third conjunct); and when the budget is exhausted the generator
simply ends, yielding at most the effective retry count of results
(fourth conjunct) without raising — `poll` itself never raises
`PollingException` (second conjunct: its only raise site is the
string-`args` `ValueError`, absent here). -/
theorem poll_nonzero_timeout_precedence {α : Type} (r : Option Nat)
    (i t : Nat) (hi : 0 < i) (ht : 0 < t) (f : Nat → α) (d : Nat → Nat) :
    (pollEffective r (some i) (some t)).1 = t / i
    ∧ pollRun f d false r (some i) (some t)
        = Except.ok (pollTrace f d r (some i) (some t))
    ∧ (∀ k, k < pollCount d r (some i) (some t) →
        (pollTrace f d r (some i) (some t)).get? k = some (f k))
    ∧ pollCount d r (some i) (some t) ≤ t / i := by
  have htne : t ≠ 0 := Nat.pos_iff_ne_zero.mp ht
  have he : pollEffective r (some i) (some t) = (t / i, t) := by
    simp [pollEffective, htne]
  refine ⟨by rw [he], rfl, ?_, ?_⟩
  · intro k hk
    rw [pollTrace, List.get?_map, List.get?_range hk]
    rfl
  · have hc : pollCount d r (some i) (some t)
        = pollCountGo d i t (t / i) 0 0 := by
      rw [pollCount, he]
      rfl
    rw [hc]
    exact pollCountGo_le d i t (t / i) 0 0

/-- Witness for `poll_nonzero_timeout_precedence` at
`retries=5, interval=2, timeout=7`: the effective retry budget is
`7 / 2 = 3`, the second yield is the second invocation's result, and at
most 3 results are yielded. -/
theorem poll_nonzero_timeout_precedence_witness :
    (pollEffective (some 5) (some 2) (some 7)).1 = 7 / 2
    ∧ (pollTrace (fun k => k) (fun _ => 0) (some 5) (some 2)
        (some 7)).get? 1 = some 1
    ∧ pollCount (fun _ => 0) (some 5) (some 2) (some 7) ≤ 7 / 2 :=
  ⟨(poll_nonzero_timeout_precedence (some 5) 2 7 (by decide) (by decide)
      (fun k => k) (fun _ => 0)).1,
   (poll_nonzero_timeout_precedence (some 5) 2 7 (by decide) (by decide)
      (fun k => k) (fun _ => 0)).2.2.1 1 (by decide),
   (poll_nonzero_timeout_precedence (some 5) 2 7 (by decide) (by decide)
      (fun k => k) (fun _ => 0)).2.2.2⟩

end Datera
